import Mathlib

/-!
Shallow embedding of `src/device/dlcd.c` (HD44780U LCD module device of the
msim simulator) and verification of its specification claims.

The C state `lcd_data_t` is embedded as the structure `Dlcd.LcdData`; the C
`int` cursor fields become `Int` (C `%` on `int` truncates toward zero, which
is `Int.tmod`), geometry counters coming from validated `uint` parameters
become `Nat`, and the `uint8_t` buffer becomes a `List Nat`.  Every handler is
translated function-by-function from the C source.
-/

namespace Dlcd

/-- Embedding of `lcd_reg_t`: the packed control triple (register select,
read/write, enable, bits 0..2 of the written word) plus the 8-bit data byte. -/
structure LcdReg where
  rs : Bool
  rw : Bool
  e : Bool
  data : Nat
deriving DecidableEq

/-- Embedding of `lcd_data_t`.  `buffer` is the `rows * cols` character grid,
row-major as in C (`buffer[row * cols + col]`). -/
structure LcdData where
  rows : Nat
  cols : Nat
  current_row : Int
  current_col : Int
  reg : LcdReg
  reg_prev : LcdReg
  buffer : List Nat
  addr : Nat
  display_on : Bool
  increment_mode : Bool
  display_shift_offset : Int
  multi_line_mode : Bool
deriving DecidableEq

/-- Embedding of `LCD_MAX_ROWS`. -/
def LCD_MAX_ROWS : Nat := 4

/-- Embedding of `LCD_MAX_COLS`. -/
def LCD_MAX_COLS : Nat := 40

/-- Embedding of `REGISTER_LIMIT`. -/
def REGISTER_LIMIT : Nat := 4

/-- The constant array `row_addr_map = {0x00, 0x40, 0x14, 0x54}`. -/
def row_addr_map : List Nat := [0x00, 0x40, 0x14, 0x54]

/-- Lookup `row_addr_map[i]` (C reads it only for `i < 4`; out of range we
default to 0, a case never reached from a validated instance). -/
def row_base (i : Nat) : Nat := row_addr_map.getD i 0

/-- Loop body of `ddram_addr_to_position`: scan the listed row indices in
order, returning the first row `i` whose base address satisfies
`base ≤ addr < base + LCD_MAX_COLS`, together with the column
`addr - base` clamped to `cols - 1`. -/
def ddram_scan (cols addr : Nat) : List Nat → Option (Nat × Int)
  | [] => none
  | i :: rest =>
    let base := row_base i
    if base ≤ addr ∧ addr < base + LCD_MAX_COLS then
      some (i,
        let col : Int := (addr : Int) - (base : Int)
        if (cols : Int) ≤ col then (cols : Int) - 1 else col)
    else ddram_scan cols addr rest

/-- Embedding of `ddram_addr_to_position`: `some (row, col)` plays the role of
the `true` return with the two out-parameters, `none` the `false` return. -/
def ddram_addr_to_position (data : LcdData) (addr : Nat) : Option (Nat × Int) :=
  ddram_scan data.cols addr (List.range data.rows)

/-- Embedding of `lcd_set_cursor`. -/
def lcd_set_cursor (data : LcdData) (addr : Nat) : LcdData :=
  match ddram_addr_to_position data addr with
  | some (row, col) => { data with current_row := (row : Int), current_col := col }
  | none => data

/-- Embedding of `lcd_advance_cursor`. -/
def lcd_advance_cursor (lcd : LcdData) : LcdData :=
  if lcd.increment_mode then
    let lcd := { lcd with current_col := lcd.current_col + 1 }
    if ¬ lcd.multi_line_mode then
      if lcd.current_col ≥ (lcd.cols : Int) then
        { lcd with current_col := 0 }
      else lcd
    else
      if lcd.current_col ≥ (lcd.cols : Int) then
        { lcd with current_col := 0,
                   current_row := (lcd.current_row + 1).tmod (lcd.rows : Int) }
      else lcd
  else
    let lcd := { lcd with current_col := lcd.current_col - 1 }
    if lcd.current_col < 0 then
      if ¬ lcd.multi_line_mode then
        { lcd with current_col := (lcd.cols : Int) - 1 }
      else
        { lcd with current_col := (lcd.cols : Int) - 1,
                   current_row := (lcd.current_row - 1 + lcd.rows).tmod (lcd.rows : Int) }
    else lcd

/-- Embedding of `lcd_handle_clear_command` (`memset` of the whole buffer). -/
def lcd_handle_clear_command (lcd : LcdData) : LcdData :=
  { lcd with buffer := List.replicate (lcd.rows * lcd.cols) 0,
             current_row := 0, current_col := 0, display_shift_offset := 0 }

/-- Embedding of `lcd_handle_home_command`. -/
def lcd_handle_home_command (lcd : LcdData) : LcdData :=
  { lcd with current_row := 0, current_col := 0, display_shift_offset := 0 }

/-- Embedding of `lcd_handle_entry_mode_command`. -/
def lcd_handle_entry_mode_command (lcd : LcdData) (cmd : Nat) : LcdData :=
  { lcd with increment_mode := cmd &&& 0x02 ≠ 0 }

/-- Embedding of `lcd_handle_display_control_command`. -/
def lcd_handle_display_control_command (lcd : LcdData) (cmd : Nat) : LcdData :=
  { lcd with display_on := cmd &&& 0x04 ≠ 0 }

/-- Embedding of `lcd_handle_function_set_command`. -/
def lcd_handle_function_set_command (lcd : LcdData) (cmd : Nat) : LcdData :=
  { lcd with multi_line_mode := cmd &&& 0x08 ≠ 0 }

/-- Embedding of `lcd_handle_shift_command`. -/
def lcd_handle_shift_command (lcd : LcdData) (cmd : Nat) : LcdData :=
  let shift_display := cmd &&& 0x08 ≠ 0
  let shift_right := cmd &&& 0x04 ≠ 0
  if shift_display then
    let off := if shift_right then lcd.display_shift_offset + 1
               else lcd.display_shift_offset - 1
    let off := if off < -(lcd.cols : Int) then -(lcd.cols : Int) else off
    let off := if off > (lcd.cols : Int) then (lcd.cols : Int) else off
    { lcd with display_shift_offset := off }
  else
    if shift_right then
      let lcd := { lcd with current_col := lcd.current_col + 1 }
      if lcd.current_col ≥ (lcd.cols : Int) then
        { lcd with current_col := 0,
                   current_row := (lcd.current_row + 1).tmod (lcd.rows : Int) }
      else lcd
    else
      let lcd := { lcd with current_col := lcd.current_col - 1 }
      if lcd.current_col < 0 then
        { lcd with current_col := (lcd.cols : Int) - 1,
                   current_row := (lcd.current_row - 1 + lcd.rows).tmod (lcd.rows : Int) }
      else lcd

/-- Embedding of `lcd_handle_set_cursor_command`. -/
def lcd_handle_set_cursor_command (lcd : LcdData) (cmd : Nat) : LcdData :=
  let addr := cmd &&& 0x7F
  if ¬ lcd.multi_line_mode then
    match ddram_addr_to_position lcd addr with
    | some (_, col) => { lcd with current_row := 0, current_col := col }
    | none => lcd
  else
    lcd_set_cursor lcd addr

/-- Embedding of `lcd_handle_command_write`; the `Bool` is the
`display_updated` return value. -/
def lcd_handle_command_write (lcd : LcdData) : LcdData × Bool :=
  if lcd.reg.rw then (lcd, false)
  else
    let cmd := lcd.reg.data
    if cmd = 0x01 then (lcd_handle_clear_command lcd, true)
    else if cmd = 0x02 then (lcd_handle_home_command lcd, false)
    else if cmd &&& 0xFC = 0x04 then (lcd_handle_entry_mode_command lcd cmd, false)
    else if cmd &&& 0xF8 = 0x08 then (lcd_handle_display_control_command lcd cmd, true)
    else if cmd &&& 0xE0 = 0x20 then (lcd_handle_function_set_command lcd cmd, true)
    else if cmd &&& 0xFC = 0x10 then (lcd_handle_shift_command lcd cmd, true)
    else if cmd &&& 0x80 ≠ 0 then (lcd_handle_set_cursor_command lcd cmd, false)
    else (lcd, false)

/-- Embedding of `lcd_handle_data_write`; the `Bool` is the return value.
C indexes `buffer[current_row * cols + current_col]`; `List.set` at `toNat`
of that index mirrors it on every state whose cursor is in range (the only
states the C code can ever index without undefined behavior). -/
def lcd_handle_data_write (lcd : LcdData) : LcdData × Bool :=
  if lcd.reg.rw then (lcd, false)
  else if lcd.current_col < (lcd.cols : Int) then
    let idx := (lcd.current_row * lcd.cols + lcd.current_col).toNat
    let lcd := { lcd with buffer := lcd.buffer.set idx lcd.reg.data }
    (lcd_advance_cursor lcd, true)
  else (lcd, false)

/-- Embedding of `lcd_execute_command`; the `Bool` records whether
`display_updated` was true, i.e. whether `lcd_print` was invoked. -/
def lcd_execute_command (lcd : LcdData) : LcdData × Bool :=
  if lcd.reg_prev.e ∧ ¬ lcd.reg.e then
    if lcd.reg.rs then lcd_handle_data_write lcd
    else lcd_handle_command_write lcd
  else (lcd, false)

/-- Embedding of `lcd_write32`.  The C switch is on the `uint64_t` difference
`addr - data->addr`, which wraps modulo `2^64`; the `Bool` records whether the
write produced a render. -/
def lcd_write32 (data : LcdData) (addr : Nat) (val : Nat) : LcdData × Bool :=
  let off := (2 ^ 64 + addr - data.addr) % 2 ^ 64
  if off = 0 then
    ({ data with reg := { data.reg with data := val % 256 } }, false)
  else if off = 1 then
    let d := { data with
      reg_prev := data.reg,
      reg := { data.reg with
        rs := val &&& 0x1 ≠ 0,
        rw := val &&& 0x2 ≠ 0,
        e := val &&& 0x4 ≠ 0 } }
    lcd_execute_command d
  else (data, false)

/-- Embedding of `dlcd_init`.  `phys_range` stands for the host collaborator
of the same name.  Modelled from the spec: `phys_range` itself is not part of
this repository ("the address range is checked by the external memory-mapping
collaborator; the core only needs the result"), so it is a parameter; the C
code consults it on `addr` and on `addr + REGISTER_LIMIT`.  `reg0` and
`reg_prev0` stand for the indeterminate register snapshots of the freshly
malloc-ed `lcd_data_t` (the C code never initializes them).  `none` plays the
role of the `false` return after `error(...)`. -/
def dlcd_init (phys_range : Nat → Bool) (cols rows addr : Nat)
    (reg0 reg_prev0 : LcdReg) : Option LcdData :=
  if cols > LCD_MAX_COLS then none
  else if rows > LCD_MAX_ROWS then none
  else if ¬ phys_range addr then none
  else if ¬ phys_range (addr + REGISTER_LIMIT) then none
  else some
    { rows := rows
      cols := cols
      current_row := 0
      current_col := 0
      reg := reg0
      reg_prev := reg_prev0
      buffer := List.replicate (rows * cols) 0
      addr := addr
      display_on := false
      increment_mode := true
      display_shift_offset := 0
      multi_line_mode := false }

/-- Fold a sequence of `lcd_write32` calls (address, value) over a state. -/
def lcd_writes (s : LcdData) : List (Nat × Nat) → LcdData
  | [] => s
  | (a, v) :: ws => lcd_writes (lcd_write32 s a v).1 ws

/-- Controller state other than the two register snapshots: geometry, cursor,
buffer, register address, mode flags and shift offset. -/
def lcd_core (s : LcdData) :
    Nat × Nat × Int × Int × List Nat × Nat × Bool × Bool × Int × Bool :=
  (s.rows, s.cols, s.current_row, s.current_col, s.buffer, s.addr,
   s.display_on, s.increment_mode, s.display_shift_offset, s.multi_line_mode)

/-- The state invariant of the spec: positive geometry, cursor inside the
configured grid, shift offset within `[-cols, cols]`. -/
def lcd_invariant (s : LcdData) : Prop :=
  0 < s.rows ∧ 0 < s.cols ∧
  0 ≤ s.current_row ∧ s.current_row < (s.rows : Int) ∧
  0 ≤ s.current_col ∧ s.current_col < (s.cols : Int) ∧
  -(s.cols : Int) ≤ s.display_shift_offset ∧ s.display_shift_offset ≤ (s.cols : Int)

instance (s : LcdData) : Decidable (lcd_invariant s) := by
  unfold lcd_invariant
  infer_instance

/-- An all-zero register snapshot, used for concrete instances. -/
def zeroReg : LcdReg := { rs := false, rw := false, e := false, data := 0 }

/-- A freshly constructed 16-column, 2-row instance at base address 0x1000. -/
def lcd16x2 : LcdData :=
  { rows := 2, cols := 16, current_row := 0, current_col := 0,
    reg := zeroReg, reg_prev := zeroReg,
    buffer := List.replicate 32 0, addr := 0x1000,
    display_on := false, increment_mode := true,
    display_shift_offset := 0, multi_line_mode := false }

/-- A pair of control-register writes producing an enable pulse: raise the
enable bit, then drop it (the falling edge that triggers execution), with
register select and read/write both 0. -/
def ePulse : List (Nat × Nat) := [(0x1001, 0x4), (0x1001, 0x0)]

/-- A write sequence that latches the command byte 0x1C (cursor/display
shift with bit 3 = shift whole display and bit 2 = shift right, per the
HD44780 instruction table) into the data register of `lcd16x2` and then
issues 17 enable pulses, i.e. 17 falling edges, each executing 0x1C.
17 exceeds the configured `cols = 16`. -/
def shift_right_seventeen : List (Nat × Nat) :=
  [(0x1000, 0x1C)] ++ (List.replicate 17 ePulse).flatten

/-- Writes that take `lcd16x2` to a single-line state whose cursor sits on
row 1: function set with multi-line on (0x28), set DDRAM address 0x40
(row 1 of the row-address map), then function set with multi-line off
(0x20), which leaves the cursor where it was. -/
def c2_setup_writes : List (Nat × Nat) :=
  [(0x1000, 0x28)] ++ ePulse ++ [(0x1000, 0xC0)] ++ ePulse ++ [(0x1000, 0x20)] ++ ePulse

theorem tmod_nonneg_lt {a b : Int} (ha : 0 ≤ a) (hb : 0 < b) :
    0 ≤ a.tmod b ∧ a.tmod b < b :=
  ⟨Int.tmod_nonneg b ha, Int.tmod_lt_of_pos a hb⟩

/-- A byte matching the shift-command dispatch mask `(cmd & 0xFC) == 0x10`
necessarily has bit 3 clear. -/
theorem land_fc_bit3 (cmd : Nat) (h : cmd &&& 0xFC = 0x10) : cmd &&& 0x08 = 0 := by
  have h8 : (0xFC : Nat) &&& 0x08 = 0x08 := by decide
  calc cmd &&& 0x08 = cmd &&& (0xFC &&& 0x08) := by rw [h8]
    _ = (cmd &&& 0xFC) &&& 0x08 := (Nat.land_assoc cmd 0xFC 0x08).symm
    _ = 0x10 &&& 0x08 := by rw [h]
    _ = 0 := by decide

/-- A byte matching the shift-command dispatch mask `(cmd & 0xFC) == 0x10`
necessarily has bit 2 clear. -/
theorem land_fc_bit2 (cmd : Nat) (h : cmd &&& 0xFC = 0x10) : cmd &&& 0x04 = 0 := by
  have h4 : (0xFC : Nat) &&& 0x04 = 0x04 := by decide
  calc cmd &&& 0x04 = cmd &&& (0xFC &&& 0x04) := by rw [h4]
    _ = (cmd &&& 0xFC) &&& 0x04 := (Nat.land_assoc cmd 0xFC 0x04).symm
    _ = 0x10 &&& 0x04 := by rw [h]
    _ = 0 := by decide

/-- Soundness of the `ddram_addr_to_position` scan: a hit names a row from
the scanned list, and (for a positive column count) a clamped in-range
column. -/
theorem ddram_scan_sound (cols addr : Nat) (l : List Nat) (r : Nat) (c : Int)
    (h : ddram_scan cols addr l = some (r, c)) :
    r ∈ l ∧ (0 < cols → 0 ≤ c ∧ c < (cols : Int)) := by
  induction l with
  | nil => simp [ddram_scan] at h
  | cons i rest ih =>
    unfold ddram_scan at h
    dsimp only at h
    by_cases hcond : row_base i ≤ addr ∧ addr < row_base i + LCD_MAX_COLS
    · rw [if_pos hcond] at h
      rw [Option.some.injEq, Prod.mk.injEq] at h
      obtain ⟨hr, hc⟩ := h
      subst hr
      refine ⟨List.mem_cons_self _ _, fun hpos => ?_⟩
      have hb : (row_base i : Int) ≤ (addr : Int) := by exact_mod_cast hcond.1
      rw [← hc]
      split_ifs with hclamp <;> omega
    · rw [if_neg hcond] at h
      obtain ⟨hmem, hbnd⟩ := ih h
      exact ⟨List.mem_cons_of_mem _ hmem, hbnd⟩

/-- Soundness of `ddram_addr_to_position` itself. -/
theorem ddram_addr_to_position_sound (s : LcdData) (addr : Nat) (r : Nat) (c : Int)
    (h : ddram_addr_to_position s addr = some (r, c)) :
    r < s.rows ∧ (0 < s.cols → 0 ≤ c ∧ c < (s.cols : Int)) := by
  obtain ⟨hmem, hbnd⟩ := ddram_scan_sound s.cols addr (List.range s.rows) r c h
  exact ⟨List.mem_range.mp hmem, hbnd⟩

theorem lcd_advance_cursor_invariant (s : LcdData) (h : lcd_invariant s) :
    lcd_invariant (lcd_advance_cursor s) := by
  obtain ⟨hr, hc, h1, h2, h3, h4, h5, h6⟩ := h
  obtain ⟨t1a, t1b⟩ :=
    tmod_nonneg_lt (a := s.current_row + 1) (b := (s.rows : Int)) (by omega) (by omega)
  obtain ⟨t2a, t2b⟩ :=
    tmod_nonneg_lt (a := s.current_row - 1 + (s.rows : Int)) (b := (s.rows : Int))
      (by omega) (by omega)
  unfold lcd_invariant lcd_advance_cursor
  dsimp only
  split_ifs <;> dsimp only <;> omega

theorem lcd_handle_shift_command_invariant (s : LcdData) (cmd : Nat)
    (h : lcd_invariant s) : lcd_invariant (lcd_handle_shift_command s cmd) := by
  obtain ⟨hr, hc, h1, h2, h3, h4, h5, h6⟩ := h
  obtain ⟨t1a, t1b⟩ :=
    tmod_nonneg_lt (a := s.current_row + 1) (b := (s.rows : Int)) (by omega) (by omega)
  obtain ⟨t2a, t2b⟩ :=
    tmod_nonneg_lt (a := s.current_row - 1 + (s.rows : Int)) (b := (s.rows : Int))
      (by omega) (by omega)
  unfold lcd_invariant lcd_handle_shift_command
  dsimp only
  split_ifs <;> dsimp only <;> omega

theorem lcd_handle_set_cursor_command_invariant (s : LcdData) (cmd : Nat)
    (h : lcd_invariant s) : lcd_invariant (lcd_handle_set_cursor_command s cmd) := by
  obtain ⟨hr, hc, h1, h2, h3, h4, h5, h6⟩ := h
  unfold lcd_invariant lcd_handle_set_cursor_command lcd_set_cursor
  dsimp only
  split_ifs with hml
  all_goals
    cases hpos : ddram_addr_to_position s (cmd &&& 0x7F) with
    | none => dsimp only; omega
    | some rc =>
      obtain ⟨r, c⟩ := rc
      obtain ⟨hrow, hcol⟩ := ddram_addr_to_position_sound s _ r c hpos
      obtain ⟨hc0, hc1⟩ := hcol hc
      dsimp only
      omega

theorem lcd_handle_clear_command_invariant (s : LcdData) (h : lcd_invariant s) :
    lcd_invariant (lcd_handle_clear_command s) := by
  obtain ⟨hr, hc, h1, h2, h3, h4, h5, h6⟩ := h
  unfold lcd_invariant lcd_handle_clear_command
  dsimp only
  omega

theorem lcd_handle_home_command_invariant (s : LcdData) (h : lcd_invariant s) :
    lcd_invariant (lcd_handle_home_command s) := by
  obtain ⟨hr, hc, h1, h2, h3, h4, h5, h6⟩ := h
  unfold lcd_invariant lcd_handle_home_command
  dsimp only
  omega

theorem lcd_handle_command_write_invariant (s : LcdData) (h : lcd_invariant s) :
    lcd_invariant (lcd_handle_command_write s).1 := by
  unfold lcd_handle_command_write
  dsimp only
  obtain ⟨hr, hc, h1, h2, h3, h4, h5, h6⟩ := h
  split_ifs with hrw hclr hhome hentry hdisp hfn hshift hcur
  · exact ⟨hr, hc, h1, h2, h3, h4, h5, h6⟩
  · exact lcd_handle_clear_command_invariant s ⟨hr, hc, h1, h2, h3, h4, h5, h6⟩
  · exact lcd_handle_home_command_invariant s ⟨hr, hc, h1, h2, h3, h4, h5, h6⟩
  · exact ⟨hr, hc, h1, h2, h3, h4, h5, h6⟩
  · exact ⟨hr, hc, h1, h2, h3, h4, h5, h6⟩
  · exact ⟨hr, hc, h1, h2, h3, h4, h5, h6⟩
  · exact lcd_handle_shift_command_invariant s _ ⟨hr, hc, h1, h2, h3, h4, h5, h6⟩
  · exact lcd_handle_set_cursor_command_invariant s _ ⟨hr, hc, h1, h2, h3, h4, h5, h6⟩
  · exact ⟨hr, hc, h1, h2, h3, h4, h5, h6⟩

theorem lcd_handle_data_write_invariant (s : LcdData) (h : lcd_invariant s) :
    lcd_invariant (lcd_handle_data_write s).1 := by
  unfold lcd_handle_data_write
  dsimp only
  split_ifs with hrw hcol
  · exact h
  · exact lcd_advance_cursor_invariant _ h
  · exact h

theorem lcd_execute_command_invariant (s : LcdData) (h : lcd_invariant s) :
    lcd_invariant (lcd_execute_command s).1 := by
  unfold lcd_execute_command
  split_ifs with hedge hrs
  · exact lcd_handle_data_write_invariant s h
  · exact lcd_handle_command_write_invariant s h
  · exact h

theorem lcd_write32_invariant (s : LcdData) (a v : Nat) (h : lcd_invariant s) :
    lcd_invariant (lcd_write32 s a v).1 := by
  unfold lcd_write32
  dsimp only
  split_ifs with h0 h1
  · exact h
  · exact lcd_execute_command_invariant _ h
  · exact h

theorem lcd_writes_invariant (s : LcdData) (ws : List (Nat × Nat))
    (h : lcd_invariant s) : lcd_invariant (lcd_writes s ws) := by
  induction ws generalizing s with
  | nil => exact h
  | cons w rest ih =>
    obtain ⟨a, v⟩ := w
    exact ih _ (lcd_write32_invariant s a v h)

theorem lcd_advance_cursor_geom (s : LcdData) :
    (lcd_advance_cursor s).rows = s.rows ∧ (lcd_advance_cursor s).cols = s.cols := by
  unfold lcd_advance_cursor
  dsimp only
  split_ifs <;> exact ⟨rfl, rfl⟩

theorem lcd_handle_shift_command_geom (s : LcdData) (cmd : Nat) :
    (lcd_handle_shift_command s cmd).rows = s.rows
      ∧ (lcd_handle_shift_command s cmd).cols = s.cols := by
  unfold lcd_handle_shift_command
  dsimp only
  split_ifs <;> exact ⟨rfl, rfl⟩

theorem lcd_handle_set_cursor_command_geom (s : LcdData) (cmd : Nat) :
    (lcd_handle_set_cursor_command s cmd).rows = s.rows
      ∧ (lcd_handle_set_cursor_command s cmd).cols = s.cols := by
  unfold lcd_handle_set_cursor_command lcd_set_cursor
  dsimp only
  split_ifs
  all_goals
    cases ddram_addr_to_position s (cmd &&& 0x7F) with
    | none => exact ⟨rfl, rfl⟩
    | some rc => obtain ⟨r, c⟩ := rc; exact ⟨rfl, rfl⟩

theorem lcd_handle_command_write_geom (s : LcdData) :
    (lcd_handle_command_write s).1.rows = s.rows
      ∧ (lcd_handle_command_write s).1.cols = s.cols := by
  unfold lcd_handle_command_write
  dsimp only
  split_ifs with hrw hclr hhome hentry hdisp hfn hshift hcur
  · exact ⟨rfl, rfl⟩
  · exact ⟨rfl, rfl⟩
  · exact ⟨rfl, rfl⟩
  · exact ⟨rfl, rfl⟩
  · exact ⟨rfl, rfl⟩
  · exact ⟨rfl, rfl⟩
  · exact lcd_handle_shift_command_geom s _
  · exact lcd_handle_set_cursor_command_geom s _
  · exact ⟨rfl, rfl⟩

theorem lcd_handle_data_write_geom (s : LcdData) :
    (lcd_handle_data_write s).1.rows = s.rows
      ∧ (lcd_handle_data_write s).1.cols = s.cols := by
  unfold lcd_handle_data_write
  dsimp only
  split_ifs with hrw hcol
  · exact ⟨rfl, rfl⟩
  · exact lcd_advance_cursor_geom _
  · exact ⟨rfl, rfl⟩

/-- No register write changes the configured geometry. -/
theorem lcd_write32_geom (s : LcdData) (a v : Nat) :
    (lcd_write32 s a v).1.rows = s.rows ∧ (lcd_write32 s a v).1.cols = s.cols := by
  unfold lcd_write32 lcd_execute_command
  dsimp only
  split_ifs with h0 h1 hedge hrs
  · exact ⟨rfl, rfl⟩
  · exact lcd_handle_data_write_geom _
  · exact lcd_handle_command_write_geom _
  · exact ⟨rfl, rfl⟩
  · exact ⟨rfl, rfl⟩

theorem lcd_writes_geom (s : LcdData) (ws : List (Nat × Nat)) :
    (lcd_writes s ws).rows = s.rows ∧ (lcd_writes s ws).cols = s.cols := by
  induction ws generalizing s with
  | nil => exact ⟨rfl, rfl⟩
  | cons w rest ih =>
    obtain ⟨a, v⟩ := w
    obtain ⟨hr, hc⟩ := lcd_write32_geom s a v
    obtain ⟨hr2, hc2⟩ := ih (lcd_write32 s a v).1
    exact ⟨hr2.trans hr, hc2.trans hc⟩

theorem lcd_advance_cursor_offset (s : LcdData) :
    (lcd_advance_cursor s).display_shift_offset = s.display_shift_offset := by
  unfold lcd_advance_cursor
  dsimp only
  split_ifs <;> rfl

theorem lcd_handle_set_cursor_command_offset (s : LcdData) (cmd : Nat) :
    (lcd_handle_set_cursor_command s cmd).display_shift_offset
      = s.display_shift_offset := by
  unfold lcd_handle_set_cursor_command lcd_set_cursor
  dsimp only
  split_ifs
  all_goals
    cases ddram_addr_to_position s (cmd &&& 0x7F) with
    | none => rfl
    | some rc => obtain ⟨r, c⟩ := rc; rfl

/-- Command execution can never make the shift offset nonzero: the shift
dispatch mask `(cmd & 0xFC) == 0x10` forces bit 3 of the command byte to
zero, so the display-shift branch of `lcd_handle_shift_command` is
unreachable. -/
theorem lcd_handle_command_write_offset_zero (s : LcdData)
    (h : s.display_shift_offset = 0) :
    (lcd_handle_command_write s).1.display_shift_offset = 0 := by
  unfold lcd_handle_command_write
  dsimp only
  split_ifs with hrw hclr hhome hentry hdisp hfn hshift hcur
  · exact h
  · rfl
  · rfl
  · exact h
  · exact h
  · exact h
  · have h8 : s.reg.data &&& 0x08 = 0 := land_fc_bit3 _ hshift
    unfold lcd_handle_shift_command
    dsimp only
    rw [if_neg (by omega)]
    split_ifs <;> dsimp only <;> exact h
  · rw [lcd_handle_set_cursor_command_offset]; exact h
  · exact h

theorem lcd_execute_command_offset_zero (s : LcdData)
    (h : s.display_shift_offset = 0) :
    (lcd_execute_command s).1.display_shift_offset = 0 := by
  unfold lcd_execute_command lcd_handle_data_write
  dsimp only
  split_ifs with hedge hrs hrw hcol
  · exact h
  · rw [lcd_advance_cursor_offset]; exact h
  · exact h
  · exact lcd_handle_command_write_offset_zero s h
  · exact h

theorem lcd_write32_offset_zero (s : LcdData) (a v : Nat)
    (h : s.display_shift_offset = 0) :
    (lcd_write32 s a v).1.display_shift_offset = 0 := by
  unfold lcd_write32
  dsimp only
  split_ifs with h0 h1
  · exact h
  · exact lcd_execute_command_offset_zero _ h
  · exact h

theorem lcd_writes_offset_zero (s : LcdData) (ws : List (Nat × Nat))
    (h : s.display_shift_offset = 0) :
    (lcd_writes s ws).display_shift_offset = 0 := by
  induction ws generalizing s with
  | nil => exact h
  | cons w rest ih =>
    obtain ⟨a, v⟩ := w
    exact ih _ (lcd_write32_offset_zero s a v h)

/-- Inversion of `dlcd_init`: a successful construction yields exactly the
documented initial state. -/
theorem dlcd_init_some (pr : Nat → Bool) (cols rows addr : Nat)
    (r0 rp0 : LcdReg) (s0 : LcdData)
    (h : dlcd_init pr cols rows addr r0 rp0 = some s0) :
    s0 = { rows := rows, cols := cols, current_row := 0, current_col := 0,
           reg := r0, reg_prev := rp0,
           buffer := List.replicate (rows * cols) 0, addr := addr,
           display_on := false, increment_mode := true,
           display_shift_offset := 0, multi_line_mode := false } := by
  unfold dlcd_init at h
  split_ifs at h
  · exact (Option.some.inj h).symm

/-- A write at offset 0 (the data register) only stores the low 8 bits of
the value into the data field. -/
theorem lcd_write32_data (s : LcdData) (v : Nat) :
    lcd_write32 s s.addr v
      = ({ s with reg := { s.reg with data := v % 256 } }, false) := by
  unfold lcd_write32
  dsimp only
  rw [if_pos (by rw [Nat.add_sub_cancel, Nat.mod_self])]

/-- A write at offset 1 (the control register) snapshots the register pair
and then runs `lcd_execute_command`. -/
theorem lcd_write32_control (s : LcdData) (v : Nat) :
    lcd_write32 s (s.addr + 1) v
      = lcd_execute_command { s with
          reg_prev := s.reg,
          reg := { s.reg with
            rs := v &&& 0x1 ≠ 0, rw := v &&& 0x2 ≠ 0, e := v &&& 0x4 ≠ 0 } } := by
  have h1 : (2 ^ 64 + (s.addr + 1) - s.addr) % 2 ^ 64 = 1 := by
    have h : 2 ^ 64 + (s.addr + 1) - s.addr = 2 ^ 64 + 1 := by omega
    rw [h, Nat.add_mod_left]
    exact Nat.mod_eq_of_lt (by norm_num)
  unfold lcd_write32
  dsimp only
  rw [if_neg (by rw [h1]; exact one_ne_zero), if_pos h1]

theorem lcd_execute_command_no_edge (s : LcdData) (h : s.reg.e = true) :
    lcd_execute_command s = (s, false) := by
  unfold lcd_execute_command
  rw [if_neg (by simp [h])]

theorem lcd_execute_command_edge_cmd (s : LcdData) (hprev : s.reg_prev.e = true)
    (he : s.reg.e = false) (hrs : s.reg.rs = false) :
    lcd_execute_command s = lcd_handle_command_write s := by
  unfold lcd_execute_command
  rw [if_pos ⟨hprev, by simp [he]⟩, if_neg (by simp [hrs])]

theorem lcd_execute_command_edge_data (s : LcdData) (hprev : s.reg_prev.e = true)
    (he : s.reg.e = false) (hrs : s.reg.rs = true) :
    lcd_execute_command s = lcd_handle_data_write s := by
  unfold lcd_execute_command
  rw [if_pos ⟨hprev, by simp [he]⟩, if_pos hrs]

theorem lcd_handle_command_write_clear (s : LcdData) (hrw : s.reg.rw = false)
    (hdata : s.reg.data = 0x01) :
    lcd_handle_command_write s = (lcd_handle_clear_command s, true) := by
  unfold lcd_handle_command_write
  dsimp only
  rw [if_neg (by simp [hrw]), if_pos hdata]

theorem lcd_handle_command_write_home (s : LcdData) (hrw : s.reg.rw = false)
    (hdata : s.reg.data = 0x02) :
    lcd_handle_command_write s = (lcd_handle_home_command s, false) := by
  unfold lcd_handle_command_write
  dsimp only
  rw [if_neg (by simp [hrw]), if_neg (by rw [hdata]; decide), if_pos hdata]

/-- C10: immediately after a successful construction the controller state
has `display_on = false`, `increment_mode = true`, `multi_line_mode = false`,
`display_shift_offset = 0`, the cursor at (0,0), and an all-zero (blank)
character buffer. -/
theorem C10_initial_state (pr : Nat → Bool) (cols rows addr : Nat)
    (r0 rp0 : LcdReg) (s : LcdData)
    (h : dlcd_init pr cols rows addr r0 rp0 = some s) :
    s.display_on = false ∧ s.increment_mode = true ∧ s.multi_line_mode = false ∧
    s.display_shift_offset = 0 ∧ s.current_row = 0 ∧ s.current_col = 0 ∧
    s.buffer = List.replicate (rows * cols) 0 := by
  rw [dlcd_init_some pr cols rows addr r0 rp0 s h]
  exact ⟨rfl, rfl, rfl, rfl, rfl, rfl, rfl⟩

set_option maxRecDepth 20000 in
theorem C10_initial_state_witness :
    lcd16x2.display_on = false ∧ lcd16x2.increment_mode = true ∧
    lcd16x2.multi_line_mode = false ∧ lcd16x2.display_shift_offset = 0 ∧
    lcd16x2.current_row = 0 ∧ lcd16x2.current_col = 0 ∧
    lcd16x2.buffer = List.replicate (2 * 16) 0 :=
  C10_initial_state (fun _ => true) 16 2 0x1000 zeroReg zeroReg lcd16x2 (by decide)

/-- C3 counterexample: construction with `rows = 0` (outside the claimed
bound `1 ≤ rows`) nevertheless succeeds — `dlcd_init` only checks the upper
bounds `cols > 40` and `rows > 4`. -/
theorem C3_counterexample :
    (dlcd_init (fun _ => true) 16 0 0x1000 zeroReg zeroReg).isSome = true
      ∧ ¬ (1 ≤ (0 : Nat)) := by
  exact ⟨by decide, by decide⟩

/-- C3 (amended): construction succeeds exactly when `cols ≤ 40`,
`rows ≤ 4` and both `phys_range` checks (on `base` and on `base + 4`) pass;
the lower geometry bounds are not checked, so `rows = 0` or `cols = 0` is
accepted. -/
theorem C3_init_success_iff (pr : Nat → Bool) (cols rows addr : Nat)
    (r0 rp0 : LcdReg) :
    (dlcd_init pr cols rows addr r0 rp0).isSome = true
      ↔ (cols ≤ 40 ∧ rows ≤ 4 ∧ pr addr = true ∧ pr (addr + 4) = true) := by
  unfold dlcd_init LCD_MAX_COLS LCD_MAX_ROWS REGISTER_LIMIT
  split_ifs with h1 h2 h3 h4
  · simp only [Option.isSome_none, Bool.false_eq_true, false_iff]
    intro hh
    omega
  · simp only [Option.isSome_none, Bool.false_eq_true, false_iff]
    intro hh
    omega
  · simp only [Option.isSome_some, true_iff]
    exact ⟨by omega, by omega, h3, h4⟩
  · simp only [Option.isSome_none, Bool.false_eq_true, false_iff]
    intro hh
    exact h4 hh.2.2.2
  · simp only [Option.isSome_none, Bool.false_eq_true, false_iff]
    intro hh
    exact h3 hh.2.2.1

/-- C4: starting from any successfully constructed instance with
`1 ≤ rows` and `1 ≤ cols`, after every sequence of register writes the
cursor lies inside the configured grid and the shift offset lies in
`[-cols, cols]`. -/
theorem C4_state_invariant (pr : Nat → Bool) (cols rows addr : Nat)
    (r0 rp0 : LcdReg) (s0 : LcdData)
    (hinit : dlcd_init pr cols rows addr r0 rp0 = some s0)
    (hrows : 1 ≤ rows) (hcols : 1 ≤ cols) (ws : List (Nat × Nat)) :
    0 ≤ (lcd_writes s0 ws).current_row ∧
    (lcd_writes s0 ws).current_row < (rows : Int) ∧
    0 ≤ (lcd_writes s0 ws).current_col ∧
    (lcd_writes s0 ws).current_col < (cols : Int) ∧
    -(cols : Int) ≤ (lcd_writes s0 ws).display_shift_offset ∧
    (lcd_writes s0 ws).display_shift_offset ≤ (cols : Int) := by
  have hs0 := dlcd_init_some pr cols rows addr r0 rp0 s0 hinit
  have h1 : s0.rows = rows := by rw [hs0]
  have h2 : s0.cols = cols := by rw [hs0]
  have hinv : lcd_invariant s0 := by
    rw [hs0]
    unfold lcd_invariant
    dsimp only
    omega
  have hfin := lcd_writes_invariant s0 ws hinv
  obtain ⟨hgr, hgc⟩ := lcd_writes_geom s0 ws
  unfold lcd_invariant at hfin
  omega

set_option maxRecDepth 20000 in
theorem C4_state_invariant_witness :
    0 ≤ (lcd_writes lcd16x2 ePulse).current_row ∧
    (lcd_writes lcd16x2 ePulse).current_row < ((2 : Nat) : Int) ∧
    0 ≤ (lcd_writes lcd16x2 ePulse).current_col ∧
    (lcd_writes lcd16x2 ePulse).current_col < ((16 : Nat) : Int) ∧
    -((16 : Nat) : Int) ≤ (lcd_writes lcd16x2 ePulse).display_shift_offset ∧
    (lcd_writes lcd16x2 ePulse).display_shift_offset ≤ ((16 : Nat) : Int) :=
  C4_state_invariant (fun _ => true) 16 2 0x1000 zeroReg zeroReg lcd16x2
    (by decide) (by decide) (by decide) ePulse

/-- C9: in every state reachable from a successful construction by register
writes, `display_shift_offset` is 0: the dispatch mask `(cmd & 0xFC) == 0x10`
forces bits 2 and 3 of a shift command byte to zero, so the display-shift
branch never runs, and Clear/Home reset the offset to 0. -/
theorem C9_offset_always_zero (pr : Nat → Bool) (cols rows addr : Nat)
    (r0 rp0 : LcdReg) (s0 : LcdData)
    (hinit : dlcd_init pr cols rows addr r0 rp0 = some s0)
    (ws : List (Nat × Nat)) :
    (lcd_writes s0 ws).display_shift_offset = 0 := by
  have hs0 := dlcd_init_some pr cols rows addr r0 rp0 s0 hinit
  subst hs0
  exact lcd_writes_offset_zero _ ws rfl

set_option maxRecDepth 20000 in
theorem C9_offset_always_zero_witness :
    (lcd_writes lcd16x2 shift_right_seventeen).display_shift_offset = 0 :=
  C9_offset_always_zero (fun _ => true) 16 2 0x1000 zeroReg zeroReg lcd16x2
    (by decide) shift_right_seventeen

set_option maxRecDepth 40000 in
/-- C1: contrary to the claim, the shift-right-display command byte 0x1C
(bits 3 and 2 set) is dropped by the decoder, whose shift arm requires
`(cmd & 0xFC) == 0x10` and therefore bits 3 and 2 clear: issuing it 17
times (more than `cols = 16`) on a fresh 16-column instance leaves
`display_shift_offset` at 0, not at `cols`. -/
theorem C1_shift_display_right_ignored :
    (lcd_writes lcd16x2 shift_right_seventeen).display_shift_offset = 0
      ∧ (lcd_writes lcd16x2 shift_right_seventeen).display_shift_offset ≠ 16 := by
  exact ⟨by decide, by decide⟩

set_option maxRecDepth 40000 in
/-- C2 counterexample: `lcd16x2` driven by `c2_setup_writes` is a
reachable state with `multi_line_mode = false` whose cursor sits on row 1;
executing Set-DDRAM-Address with command byte 0xB0 (address 0x30, inside no
row's range when only rows 0 and 1 exist) leaves `current_row = 1`, not 0. -/
theorem C2_counterexample :
    (lcd_writes lcd16x2 c2_setup_writes).multi_line_mode = false
      ∧ (lcd_writes (lcd_writes lcd16x2 c2_setup_writes)
          ([(0x1000, 0xB0)] ++ ePulse)).current_row = 1 := by
  exact ⟨by decide, by decide⟩

/-- C2 (amended): with `multi_line_mode = false`, executing Set-DDRAM-Address
forces `current_row` to 0 for every address that lies inside some row's
address range (regardless of which row matched); an address inside no row's
range leaves the cursor unchanged. -/
theorem C2_single_line_set_cursor_row_zero (s : LcdData) (cmd : Nat)
    (hml : s.multi_line_mode = false)
    (hhit : (ddram_addr_to_position s (cmd &&& 0x7F)).isSome = true) :
    (lcd_handle_set_cursor_command s cmd).current_row = 0 := by
  unfold lcd_handle_set_cursor_command
  dsimp only
  rw [if_pos (by simp [hml])]
  cases hpos : ddram_addr_to_position s (cmd &&& 0x7F) with
  | none => rw [hpos] at hhit; simp at hhit
  | some rc =>
    obtain ⟨r, c⟩ := rc
    rfl

theorem C2_single_line_set_cursor_row_zero_witness :
    lcd16x2.multi_line_mode = false
      ∧ (ddram_addr_to_position lcd16x2 (0xC0 &&& 0x7F)).isSome = true
      ∧ (lcd_handle_set_cursor_command lcd16x2 0xC0).current_row = 0 :=
  ⟨by decide, by decide,
    C2_single_line_set_cursor_row_zero lcd16x2 0xC0 (by decide) (by decide)⟩

/-- C5: a data write with `increment_mode` on and the cursor at the last
column wraps the cursor to column 0; the row is unchanged in single-line
mode and advances by one modulo `rows` in multi-line mode. -/
theorem C5_increment_wrap_at_last_column (s : LcdData)
    (hinc : s.increment_mode = true)
    (hcol : s.current_col = (s.cols : Int) - 1)
    (hrow : 0 ≤ s.current_row)
    (hrw : s.reg.rw = false) :
    (lcd_handle_data_write s).1.current_col = 0 ∧
    (lcd_handle_data_write s).1.current_row =
      (if s.multi_line_mode then (s.current_row + 1) % (s.rows : Int)
       else s.current_row) := by
  have hc2 : s.current_col < (s.cols : Int) := by omega
  unfold lcd_handle_data_write
  dsimp only
  rw [if_neg (by simp [hrw]), if_pos hc2]
  unfold lcd_advance_cursor
  dsimp only
  rw [if_pos hinc]
  by_cases hml : s.multi_line_mode = true
  · rw [if_neg (by simp [hml]), if_pos (by omega : s.current_col + 1 ≥ (s.cols : Int))]
    dsimp only
    refine ⟨rfl, ?_⟩
    rw [if_pos hml]
    exact Int.tmod_eq_emod (by omega) (by omega)
  · rw [if_pos (by simp [hml]), if_pos (by omega : s.current_col + 1 ≥ (s.cols : Int))]
    dsimp only
    exact ⟨rfl, by rw [if_neg hml]⟩

theorem C5_increment_wrap_at_last_column_witness :
    ({ lcd16x2 with current_col := 15 } : LcdData).increment_mode = true
      ∧ ({ lcd16x2 with current_col := 15 } : LcdData).current_col
          = (({ lcd16x2 with current_col := 15 } : LcdData).cols : Int) - 1
      ∧ (lcd_handle_data_write { lcd16x2 with current_col := 15 }).1.current_col = 0
      ∧ (lcd_handle_data_write { lcd16x2 with current_col := 15 }).1.current_row =
          (if ({ lcd16x2 with current_col := 15 } : LcdData).multi_line_mode then
            (({ lcd16x2 with current_col := 15 } : LcdData).current_row + 1)
              % (({ lcd16x2 with current_col := 15 } : LcdData).rows : Int)
           else ({ lcd16x2 with current_col := 15 } : LcdData).current_row) := by
  refine ⟨by decide, by decide, ?_⟩
  exact C5_increment_wrap_at_last_column { lcd16x2 with current_col := 15 }
    (by decide) (by decide) (by decide) (by decide)

/-- C6: a register write mutates controller state beyond the two register
snapshots only on an enable falling edge (previous enable bit set, written
enable bit clear) with the written read/write bit clear; under any other
transition, or with the read/write bit set, `lcd_core` is unchanged. -/
theorem C6_core_unchanged_without_qualifying_edge (s : LcdData) (a v : Nat)
    (h : ¬ (s.reg.e = true ∧ v &&& 0x4 = 0 ∧ v &&& 0x2 = 0)) :
    lcd_core (lcd_write32 s a v).1 = lcd_core s := by
  unfold lcd_write32
  dsimp only
  split_ifs with h0 h1
  · rfl
  · unfold lcd_execute_command
    dsimp only
    split_ifs with hedge hrs
    · obtain ⟨hpe, hce⟩ := hedge
      have h4 : v &&& 0x4 = 0 := by simpa using hce
      have h2 : v &&& 0x2 ≠ 0 := fun hh => h ⟨hpe, h4, hh⟩
      unfold lcd_handle_data_write
      dsimp only
      rw [if_pos (by simpa using h2)]
      rfl
    · obtain ⟨hpe, hce⟩ := hedge
      have h4 : v &&& 0x4 = 0 := by simpa using hce
      have h2 : v &&& 0x2 ≠ 0 := fun hh => h ⟨hpe, h4, hh⟩
      unfold lcd_handle_command_write
      dsimp only
      rw [if_pos (by simpa using h2)]
      rfl
    · rfl
  · rfl

theorem C6_core_unchanged_witness :
    lcd_core (lcd_write32 lcd16x2 0x1001 0x4).1 = lcd_core lcd16x2 :=
  C6_core_unchanged_without_qualifying_edge lcd16x2 0x1001 0x4 (by decide)

/-- C7: from any controller state, latching the command byte 0x01 into the
data register and pulsing enable (so that a qualifying falling edge executes
Clear) leaves every buffer cell zero, the cursor at (0,0), the shift offset
at 0, and reports the display as changed. -/
theorem C7_clear_command (s : LcdData) :
    ((lcd_write32 (lcd_write32 (lcd_write32 s s.addr 0x01).1
        (s.addr + 1) 0x4).1 (s.addr + 1) 0x0).1.buffer
      = List.replicate (s.rows * s.cols) 0) ∧
    ((lcd_write32 (lcd_write32 (lcd_write32 s s.addr 0x01).1
        (s.addr + 1) 0x4).1 (s.addr + 1) 0x0).1.current_row = 0) ∧
    ((lcd_write32 (lcd_write32 (lcd_write32 s s.addr 0x01).1
        (s.addr + 1) 0x4).1 (s.addr + 1) 0x0).1.current_col = 0) ∧
    ((lcd_write32 (lcd_write32 (lcd_write32 s s.addr 0x01).1
        (s.addr + 1) 0x4).1 (s.addr + 1) 0x0).1.display_shift_offset = 0) ∧
    ((lcd_write32 (lcd_write32 (lcd_write32 s s.addr 0x01).1
        (s.addr + 1) 0x4).1 (s.addr + 1) 0x0).2 = true) := by
  rw [lcd_write32_data]
  dsimp only
  rw [lcd_write32_control, lcd_execute_command_no_edge _ (by rfl)]
  dsimp only
  rw [lcd_write32_control,
    lcd_execute_command_edge_cmd _ (by rfl) (by rfl) (by rfl),
    lcd_handle_command_write_clear _ (by rfl) (by rfl)]
  exact ⟨rfl, rfl, rfl, rfl, rfl⟩

/-- C8: from any controller state, latching the command byte 0x02 into the
data register and pulsing enable (so that a qualifying falling edge executes
Home) resets the cursor to (0,0) and the shift offset to 0, leaves the
character buffer exactly as it was, and does not report the display as
changed. -/
theorem C8_home_command (s : LcdData) :
    ((lcd_write32 (lcd_write32 (lcd_write32 s s.addr 0x02).1
        (s.addr + 1) 0x4).1 (s.addr + 1) 0x0).1.buffer = s.buffer) ∧
    ((lcd_write32 (lcd_write32 (lcd_write32 s s.addr 0x02).1
        (s.addr + 1) 0x4).1 (s.addr + 1) 0x0).1.current_row = 0) ∧
    ((lcd_write32 (lcd_write32 (lcd_write32 s s.addr 0x02).1
        (s.addr + 1) 0x4).1 (s.addr + 1) 0x0).1.current_col = 0) ∧
    ((lcd_write32 (lcd_write32 (lcd_write32 s s.addr 0x02).1
        (s.addr + 1) 0x4).1 (s.addr + 1) 0x0).1.display_shift_offset = 0) ∧
    ((lcd_write32 (lcd_write32 (lcd_write32 s s.addr 0x02).1
        (s.addr + 1) 0x4).1 (s.addr + 1) 0x0).2 = false) := by
  rw [lcd_write32_data]
  dsimp only
  rw [lcd_write32_control, lcd_execute_command_no_edge _ (by rfl)]
  dsimp only
  rw [lcd_write32_control,
    lcd_execute_command_edge_cmd _ (by rfl) (by rfl) (by rfl),
    lcd_handle_command_write_home _ (by rfl) (by rfl)]
  exact ⟨rfl, rfl, rfl, rfl, rfl⟩

end Dlcd
